import Mathlib

/-!
A verification development for the laudspeaker journey step-advancement
engine, centred on `MessageStepProcessor.process` (the Send Gate for
message-type steps and the dispatcher tail that follows it).

The processor is embedded shallowly: the job payload together with the
results of all external calls (rate-limit checks, template/step lookups,
environment flags, the current instant) form a `ProcEnv`; running the
processor yields the ordered list of observable side effects it performs
plus an optional thrown error.  The timing helpers `convertTimeToUTC` and
`isWithinInterval` are not part of the processor source file and are modelled
from the specification.
-/

namespace Laudspeaker

/-- Step types, after the `StepType` enum of `types/step.interface`. -/
inductive StepType
  | START
  | EXPERIMENT
  | LOOP
  | EXIT
  | MULTISPLIT
  | MESSAGE
  | TIME_WINDOW
  | TIME_DELAY
  | WAIT_UNTIL_BRANCH
  | AB_TEST
  | RANDOM_COHORT_BRANCH
  | TRACKER
  | ATTRIBUTE_BRANCH
  deriving DecidableEq, Repr

/-- Template channel types, after the `TemplateType` enum
(`template.entity`), extended with the `PUSH` variant the processor
switches on. -/
inductive TemplateType
  | EMAIL
  | SLACK
  | SMS
  | PUSH
  | FIREBASE
  | WEBHOOK
  deriving DecidableEq, Repr

/-- The Send Gate decision type, after the `MessageSendType` union declared
inside `MessageStepProcessor.process`. -/
inductive MessageSendType
  | SEND
  | QUIET_REQUEUE
  | QUIET_ABORT
  | LIMIT_REQUEUE
  | LIMIT_HOLD
  | MOCK_SEND
  deriving DecidableEq, Repr

/-- Quiet-hours fallback behaviour, after
`JourneySettingsQuietFallbackBehavior`. -/
inductive QuietFallbackBehavior
  | NextAvailableTime
  | Abort
  deriving DecidableEq, Repr

/-- A UTC instant at the resolution JavaScript `Date` exposes here:
a calendar day index, the minute of that day, the second of that minute
and the millisecond of that second. -/
structure Instant where
  day : Nat
  minute : Nat
  sec : Nat
  ms : Nat
  deriving DecidableEq, Repr

/-- A well-formed instant: minute of day below 1440, second below 60,
millisecond below 1000. -/
def Instant.Valid (t : Instant) : Prop :=
  t.minute < 1440 ∧ t.sec < 60 ∧ t.ms < 1000

instance (t : Instant) : Decidable t.Valid := by
  unfold Instant.Valid; infer_instance

/-- Total milliseconds since the epoch, the order `Date` comparisons use. -/
def Instant.toMs (t : Instant) : Nat :=
  ((t.day * 1440 + t.minute) * 60 + t.sec) * 1000 + t.ms

/-- `requeueTime.setUTCHours(h, m, 0, 0)`: keep the UTC calendar day, set
the time of day to the given minute, zero the seconds and milliseconds. -/
def Instant.setTimeOfDay (t : Instant) (m : Nat) : Instant :=
  ⟨t.day, m, 0, 0⟩

/-- `requeueTime.setDate(requeueTime.getDate() + 1)`: advance one calendar
day (the `Date` object handles month/year rollover, so the model just
increments the day index). -/
def Instant.addDay (t : Instant) : Instant :=
  ⟨t.day + 1, t.minute, t.sec, t.ms⟩

/-- `requeueTime.setMinutes(requeueTime.getMinutes() + 1)`: advance one
minute, keeping seconds and milliseconds, rolling the day over at
midnight. -/
def Instant.addMinute (t : Instant) : Instant :=
  if t.minute + 1 < 1440 then ⟨t.day, t.minute + 1, t.sec, t.ms⟩
  else ⟨t.day + 1, 0, t.sec, t.ms⟩

/-- Modelled from the spec: `convertTimeToUTC` (helper `timing`, not in the
processor source file) converts a configured local time of day to UTC using the
stored workspace offset, at minute resolution. -/
def convertTimeToUTC (m : Nat) (offsetMinutes : Int) : Nat :=
  (((m : Int) - offsetMinutes) % 1440).toNat

/-- Modelled from the spec: `isWithinInterval` (helper `timing`, not in the
processor source file) decides containment of a time of day in the half-open
window `[startTime, endTime)` at minute resolution, wraparound-aware. -/
def isWithinInterval (s e t : Nat) : Bool :=
  if s < e then decide (s ≤ t) && decide (t < e)
  else if e < s then decide (s ≤ t) || decide (t < e)
  else false

/-- Quiet-hours configuration, after `journeySettings.quietHours`.  Times
of day are minutes of the local day; an absent `fallbackBehavior` models a
value outside the enum (the `default` switch branch). -/
structure QuietHours where
  enabled : Bool
  startTime : Nat
  endTime : Nat
  fallbackBehavior : Option QuietFallbackBehavior
  deriving DecidableEq, Repr

/-- Journey settings, after `journey.journeySettings`. -/
structure JourneySettings where
  quietHours : Option QuietHours
  deriving DecidableEq, Repr

/-- The journey fields the processor reads. -/
structure Journey where
  journeySettings : Option JourneySettings
  deriving DecidableEq, Repr

/-- The workspace fields the processor reads. -/
structure Workspace where
  timezoneUTCOffset : Int
  emailProvider : String
  freeEmailsCount : Nat
  deriving DecidableEq, Repr

/-- The template fields the Send Gate and send branch read: the channel
type and whether `webhookData` is present. -/
structure Template where
  type : TemplateType
  webhookData : Bool
  deriving DecidableEq, Repr

/-- `step.metadata.selectedPlatform` for push templates. -/
inductive PushPlatform
  | All
  | IOS
  | Android
  deriving DecidableEq, Repr

/-- The full input of one `process` invocation: the job payload fields the
processor reads, plus the results every external call would return
(rate-limit checks, the template and destination-step lookups, the
mock-send environment flags, the current instant). -/
structure ProcEnv where
  journey : Journey
  workspace : Workspace
  now : Instant
  stepId : Nat
  customerId : Nat
  customersMessagedLimitEnabled : Bool
  customersMessagedDoRateLimit : Bool
  rateLimitByMinuteEnabled : Bool
  rateLimitByMinuteDoRateLimit : Bool
  mockMessageSend : Bool
  template : Option Template
  selectedPlatform : PushPlatform
  nextStep : Option StepType
  pingConfigured : Bool
  pingFails : Bool
  deriving DecidableEq, Repr

/-- The observable side effects `process` performs, in program order. -/
inductive Effect
  | sendMessage (channel : TemplateType)
  | insertDeliveryStatus
  | insertAborted
  | insertSentSynthetic
  | enqueueWebhook
  | saveOwnerWorkspace
  | setMessageSent
  | rateLimitByMinuteIncrement
  | rateLimitByCustomersIncrement
  | requeueMessage (stepId customerId : Nat) (t : Option Instant)
  | unlock
  | enqueueNextStep (t : StepType)
  | mockPing (failed : Bool)
  deriving DecidableEq, Repr

/-- Errors `process` can throw. -/
inductive ProcessError
  | paymentRequired
  | notImplemented
  | typeError
  deriving DecidableEq, Repr

/-- The quiet-hours `switch (quietHours.fallbackBehavior)`. -/
def quietDecision (qh : QuietHours) : MessageSendType :=
  match qh.fallbackBehavior with
  | some QuietFallbackBehavior.NextAvailableTime => MessageSendType.QUIET_REQUEUE
  | some QuietFallbackBehavior.Abort => MessageSendType.QUIET_ABORT
  | none => MessageSendType.QUIET_REQUEUE

/-- The quiet-hours requeue time: `new Date(now)` with UTC hours set to the
UTC end time of the window and seconds/milliseconds zeroed, advanced one
calendar day when it compares below `now`. -/
def quietRequeueTime (now : Instant) (utcEnd : Nat) : Instant :=
  let r := now.setTimeOfDay utcEnd
  if r.toMs < now.toMs then r.addDay else r

/-- The quiet-hours phase of the gate (the first `if` block of `process`):
when the journey has enabled quiet hours whose converted UTC window
contains the current UTC time of day, pick the fallback decision and the
requeue time; otherwise stay at `SEND`. -/
def quietPhase (env : ProcEnv) : MessageSendType × Option Instant :=
  match env.journey.journeySettings with
  | none => (MessageSendType.SEND, none)
  | some js =>
    match js.quietHours with
    | none => (MessageSendType.SEND, none)
    | some qh =>
      if qh.enabled then
        let utcStart := convertTimeToUTC qh.startTime env.workspace.timezoneUTCOffset
        let utcEnd := convertTimeToUTC qh.endTime env.workspace.timezoneUTCOffset
        if isWithinInterval utcStart utcEnd env.now.minute then
          (quietDecision qh, some (quietRequeueTime env.now utcEnd))
        else (MessageSendType.SEND, none)
      else (MessageSendType.SEND, none)

/-- `template && !template.webhookData`: the template lookup returned a
truthy value carrying no webhook payload. -/
def templateTruthyNoWebhook : Option Template → Bool
  | some t => !t.webhookData
  | none => false

/-- The Send Gate: the quiet-hours phase, then the distinct-customers
check, then the per-minute check, then the mock-send check, each guard
evaluated only while the decision is still `SEND`.  Returns the decision
and the final value of `requeueTime`. -/
def sendGate (env : ProcEnv) : MessageSendType × Option Instant :=
  let p := quietPhase env
  let st := p.1
  let rq := p.2
  let step2 : MessageSendType × Option Instant :=
    if st = MessageSendType.SEND then
      if env.customersMessagedLimitEnabled && env.customersMessagedDoRateLimit then
        (MessageSendType.LIMIT_HOLD, rq)
      else (st, rq)
    else (st, rq)
  let step3 : MessageSendType × Option Instant :=
    if step2.1 = MessageSendType.SEND then
      if env.rateLimitByMinuteEnabled && env.rateLimitByMinuteDoRateLimit then
        (MessageSendType.LIMIT_REQUEUE, some env.now.addMinute)
      else step2
    else step2
  let step4 : MessageSendType × Option Instant :=
    if step3.1 = MessageSendType.SEND && env.mockMessageSend &&
        templateTruthyNoWebhook env.template then
      (MessageSendType.MOCK_SEND, step3.2)
    else step3
  step4

/-- Timer-class step types, as tested by the dispatcher tail. -/
def isTimerType (t : StepType) : Bool :=
  t = StepType.TIME_DELAY || t = StepType.TIME_WINDOW || t = StepType.WAIT_UNTIL_BRANCH

/-- `processorMap[nextStep.type](nextStep.type, nextJob)`: implemented
types enqueue the job on their queue; reserved types throw
`Function not implemented`. -/
def processorMap (t : StepType) : Except ProcessError (List Effect) :=
  match t with
  | StepType.AB_TEST => Except.error ProcessError.notImplemented
  | StepType.RANDOM_COHORT_BRANCH => Except.error ProcessError.notImplemented
  | StepType.TRACKER => Except.error ProcessError.notImplemented
  | StepType.ATTRIBUTE_BRANCH => Except.error ProcessError.notImplemented
  | _ => Except.ok [Effect.enqueueNextStep t]

/-- The dispatcher tail of `process` (after a completed send attempt):
look up the destination step; for a non-timer destination build `nextJob`
and hand it to `processorMap` while keeping the lock; for a timer-class
destination release the lock; for an unresolvable destination release the
lock. -/
def dispatchTail (env : ProcEnv) : Except ProcessError (List Effect) :=
  match env.nextStep with
  | some t =>
    if !(isTimerType t) then processorMap t
    else Except.ok [Effect.unlock]
  | none => Except.ok [Effect.unlock]

/-- The effects of the real-send `switch (template.type)` block, by
channel.  The email free-tier branch throws `402 PAYMENT_REQUIRED` when
the free email quota is exhausted, before any send; the push branch reads
`journeySettings.quietHours.enabled` without a null guard, so a missing
config throws a `TypeError` before any send. -/
def sendEffects (env : ProcEnv) (t : Template) : Except ProcessError (List Effect) :=
  match t.type with
  | TemplateType.EMAIL =>
    if env.workspace.emailProvider = "free3" && env.workspace.freeEmailsCount = 0 then
      Except.error ProcessError.paymentRequired
    else
      Except.ok ([Effect.sendMessage TemplateType.EMAIL, Effect.insertDeliveryStatus] ++
        (if env.workspace.emailProvider = "free3" then [Effect.saveOwnerWorkspace] else []))
  | TemplateType.PUSH =>
    match env.journey.journeySettings with
    | none => Except.error ProcessError.typeError
    | some js =>
      match js.quietHours with
      | none => Except.error ProcessError.typeError
      | some _ =>
        match env.selectedPlatform with
        | PushPlatform.All =>
          Except.ok [Effect.sendMessage TemplateType.PUSH, Effect.insertDeliveryStatus,
            Effect.sendMessage TemplateType.PUSH, Effect.insertDeliveryStatus]
        | PushPlatform.IOS =>
          Except.ok [Effect.sendMessage TemplateType.PUSH, Effect.insertDeliveryStatus]
        | PushPlatform.Android =>
          Except.ok [Effect.sendMessage TemplateType.PUSH, Effect.insertDeliveryStatus]
  | TemplateType.SMS =>
    Except.ok [Effect.sendMessage TemplateType.SMS, Effect.insertDeliveryStatus]
  | TemplateType.WEBHOOK =>
    Except.ok (if t.webhookData then [Effect.enqueueWebhook] else [])
  | _ => Except.ok []

/-- One run of `MessageStepProcessor.process`: the Send Gate decides, the
terminal handling of the decision runs, and (for `SEND`, `MOCK_SEND` and
`QUIET_ABORT`) the dispatcher tail resolves and advances.  Returns the
effects performed in order and the error thrown, if any. -/
def processRun (env : ProcEnv) : List Effect × Option ProcessError :=
  match (sendGate env).1 with
  | MessageSendType.SEND =>
    match env.template with
    | none => ([], some ProcessError.typeError)
    | some t =>
      match sendEffects env t with
      | Except.error e => ([], some e)
      | Except.ok effs =>
        let effs := effs ++ [Effect.setMessageSent, Effect.rateLimitByMinuteIncrement]
        match dispatchTail env with
        | Except.error e => (effs, some e)
        | Except.ok tl => (effs ++ tl, none)
  | MessageSendType.QUIET_ABORT =>
    match dispatchTail env with
    | Except.error e => ([Effect.insertAborted], some e)
    | Except.ok tl => (Effect.insertAborted :: tl, none)
  | MessageSendType.MOCK_SEND =>
    let effs := (if env.pingConfigured then [Effect.mockPing env.pingFails] else []) ++
      [Effect.insertSentSynthetic, Effect.setMessageSent, Effect.rateLimitByMinuteIncrement]
    match dispatchTail env with
    | Except.error e => (effs, some e)
    | Except.ok tl => (effs ++ tl, none)
  | MessageSendType.LIMIT_HOLD => ([Effect.unlock], none)
  | MessageSendType.QUIET_REQUEUE =>
    ([Effect.requeueMessage env.stepId env.customerId (sendGate env).2, Effect.unlock], none)
  | MessageSendType.LIMIT_REQUEUE =>
    ([Effect.requeueMessage env.stepId env.customerId (sendGate env).2, Effect.unlock], none)

/-- The minute index of an instant (how `Date` minutes partition time);
two instants are in the same minute exactly when their indices agree. -/
def minuteIndex (t : Instant) : Nat := t.day * 1440 + t.minute

/-- The description given by the specification of the quiet-hours wake time: the
UTC end time of the window on the current UTC date, advanced by one calendar
day if and only if that instant is not strictly after now.  Written from
the wording of the spec, to be compared with `quietRequeueTime`. -/
def specQuietWake (now : Instant) (utcEnd : Nat) : Instant :=
  let r := now.setTimeOfDay utcEnd
  if r.toMs ≤ now.toMs then r.addDay else r

/-- The description given by the specification of the per-minute requeue time: the
start of the next minute, `now + (60 − now.seconds)` seconds.  Written
from the wording of the spec, to be compared with `Instant.addMinute`. -/
def specNextMinuteStart (now : Instant) : Instant :=
  if now.minute + 1 < 1440 then ⟨now.day, now.minute + 1, 0, 0⟩
  else ⟨now.day + 1, 0, 0, 0⟩

/-- The reserved-but-unimplemented step types, whose `processorMap`
entries throw. -/
def isReservedType (t : StepType) : Bool :=
  t = StepType.AB_TEST || t = StepType.RANDOM_COHORT_BRANCH ||
    t = StepType.TRACKER || t = StepType.ATTRIBUTE_BRANCH

/-- The effects a run performs before reaching the dispatcher tail, when
the terminal handling of the decision completes and reaches it: the send (or
mock-send or abort-telemetry) effects plus the post-send bookkeeping.
`none` when the run stops or throws before the tail. -/
def preTailEffects (env : ProcEnv) : Option (List Effect) :=
  match (sendGate env).1 with
  | MessageSendType.SEND =>
    match env.template with
    | none => none
    | some t =>
      match sendEffects env t with
      | Except.error _ => none
      | Except.ok effs =>
        some (effs ++ [Effect.setMessageSent, Effect.rateLimitByMinuteIncrement])
  | MessageSendType.MOCK_SEND =>
    some ((if env.pingConfigured then [Effect.mockPing env.pingFails] else []) ++
      [Effect.insertSentSynthetic, Effect.setMessageSent, Effect.rateLimitByMinuteIncrement])
  | MessageSendType.QUIET_ABORT => some [Effect.insertAborted]
  | _ => none

/-- The effect vocabulary of the real-send switch: the classes of effect
`sendEffects` can produce. -/
def isSendishEffect : Effect → Bool
  | Effect.sendMessage _ => true
  | Effect.insertDeliveryStatus => true
  | Effect.saveOwnerWorkspace => true
  | Effect.enqueueWebhook => true
  | _ => false

/-- The effect vocabulary of the dispatcher tail. -/
def isTailEffect : Effect → Bool
  | Effect.unlock => true
  | Effect.enqueueNextStep _ => true
  | _ => false

/-- A quiet-hours window 22:00 → 06:00 deferring to the next available
time. -/
def quietWindow2206 : QuietHours :=
  ⟨true, 1320, 360, some QuietFallbackBehavior.NextAvailableTime⟩

/-- A baseline environment: no quiet hours, no rate limits, no mock mode,
an email template without webhook payload, a message-type destination
step, the clock at 23:30:00.000 UTC of day 100. -/
def baseEnv : ProcEnv where
  journey := ⟨none⟩
  workspace := ⟨0, "mailgun", 3⟩
  now := ⟨100, 1410, 0, 0⟩
  stepId := 7
  customerId := 21
  customersMessagedLimitEnabled := false
  customersMessagedDoRateLimit := false
  rateLimitByMinuteEnabled := false
  rateLimitByMinuteDoRateLimit := false
  mockMessageSend := false
  template := some ⟨TemplateType.EMAIL, false⟩
  selectedPlatform := PushPlatform.All
  nextStep := some StepType.MESSAGE
  pingConfigured := false
  pingFails := false

/-- `baseEnv` inside the 22:00 → 06:00 quiet window with fallback
`Abort`. -/
def envQuietAbort : ProcEnv :=
  { baseEnv with journey :=
      ⟨some ⟨some { quietWindow2206 with
        fallbackBehavior := some QuietFallbackBehavior.Abort }⟩⟩ }

/-- `baseEnv` inside the 22:00 → 06:00 quiet window with fallback
`NextAvailableTime`, and both rate limits tripping. -/
def envQuietBothLimits : ProcEnv :=
  { baseEnv with
      journey := ⟨some ⟨some quietWindow2206⟩⟩
      customersMessagedLimitEnabled := true
      customersMessagedDoRateLimit := true
      rateLimitByMinuteEnabled := true
      rateLimitByMinuteDoRateLimit := true }

/-- `baseEnv` with both rate limits tripping and no quiet hours. -/
def envBothLimits : ProcEnv :=
  { baseEnv with
      customersMessagedLimitEnabled := true
      customersMessagedDoRateLimit := true
      rateLimitByMinuteEnabled := true
      rateLimitByMinuteDoRateLimit := true }

/-- `baseEnv` inside the 22:00 → 06:00 quiet window, deferring. -/
def envQuietRequeue : ProcEnv :=
  { baseEnv with journey := ⟨some ⟨some quietWindow2206⟩⟩ }

/-- `baseEnv` with the per-minute limit tripping and the clock at
23:30:30.005: the seconds are nonzero. -/
def envMinuteLimit : ProcEnv :=
  { baseEnv with
      now := ⟨100, 1410, 30, 5⟩
      rateLimitByMinuteEnabled := true
      rateLimitByMinuteDoRateLimit := true }

/-- `baseEnv` in mock mode with a configured, failing diagnostic ping. -/
def envMock : ProcEnv :=
  { baseEnv with
      mockMessageSend := true
      pingConfigured := true
      pingFails := true }

/-- `envQuietAbort` whose destination step has the reserved type
`AB_TEST`. -/
def envAbortReserved : ProcEnv :=
  { envQuietAbort with nextStep := some StepType.AB_TEST }

/-- `baseEnv` on the free email tier with the free-email quota
exhausted. -/
def envFreeQuota : ProcEnv :=
  { baseEnv with workspace := ⟨0, "free3", 0⟩ }


lemma quietDecision_ne (qh : QuietHours) :
    quietDecision qh ≠ MessageSendType.SEND ∧
    quietDecision qh ≠ MessageSendType.MOCK_SEND ∧
    quietDecision qh ≠ MessageSendType.LIMIT_HOLD ∧
    quietDecision qh ≠ MessageSendType.LIMIT_REQUEUE := by
  unfold quietDecision
  rcases qh.fallbackBehavior with _ | fb
  · simp
  · cases fb <;> simp

lemma quietPhase_quiet (env : ProcEnv) (js : JourneySettings) (qh : QuietHours)
    (hjs : env.journey.journeySettings = some js)
    (hqh : js.quietHours = some qh)
    (hen : qh.enabled = true)
    (hin : isWithinInterval (convertTimeToUTC qh.startTime env.workspace.timezoneUTCOffset)
      (convertTimeToUTC qh.endTime env.workspace.timezoneUTCOffset) env.now.minute = true) :
    quietPhase env = (quietDecision qh,
      some (quietRequeueTime env.now
        (convertTimeToUTC qh.endTime env.workspace.timezoneUTCOffset))) := by
  simp [quietPhase, hjs, hqh, hen, hin]

lemma sendGate_quiet (env : ProcEnv) (js : JourneySettings) (qh : QuietHours)
    (hjs : env.journey.journeySettings = some js)
    (hqh : js.quietHours = some qh)
    (hen : qh.enabled = true)
    (hin : isWithinInterval (convertTimeToUTC qh.startTime env.workspace.timezoneUTCOffset)
      (convertTimeToUTC qh.endTime env.workspace.timezoneUTCOffset) env.now.minute = true) :
    sendGate env = (quietDecision qh,
      some (quietRequeueTime env.now
        (convertTimeToUTC qh.endTime env.workspace.timezoneUTCOffset))) := by
  have hq := quietPhase_quiet env js qh hjs hqh hen hin
  have hne := quietDecision_ne qh
  unfold sendGate
  rw [hq]
  simp [hne.1]


lemma isWithinInterval_ne_end (s e t : Nat) (h : isWithinInterval s e t = true) :
    t ≠ e := by
  unfold isWithinInterval at h
  split at h
  · simp at h; omega
  · split at h
    · simp at h; omega
    · simp at h

lemma convertTimeToUTC_lt (m : Nat) (off : Int) : convertTimeToUTC m off < 1440 := by
  unfold convertTimeToUTC
  have h1 : (0 : Int) ≤ ((m : Int) - off) % 1440 := Int.emod_nonneg _ (by norm_num)
  have h2 : ((m : Int) - off) % 1440 < 1440 := Int.emod_lt_of_pos _ (by norm_num)
  omega

lemma quietRequeueTime_eq_spec (now : Instant) (utcEnd : Nat)
    (hv : now.Valid) (hend : utcEnd < 1440) (hne : now.minute ≠ utcEnd) :
    quietRequeueTime now utcEnd = specQuietWake now utcEnd := by
  obtain ⟨h1, h2, h3⟩ := hv
  unfold quietRequeueTime specQuietWake
  have hnem : (now.setTimeOfDay utcEnd).toMs ≠ now.toMs := by
    unfold Instant.setTimeOfDay Instant.toMs
    simp only
    omega
  rcases Nat.lt_or_ge (now.setTimeOfDay utcEnd).toMs now.toMs with h | h
  · rw [if_pos h, if_pos (Nat.le_of_lt h)]
  · rw [if_neg (Nat.not_lt.mpr h), if_neg (by omega)]

lemma addMinute_toMs (t : Instant) (hv : t.Valid) :
    (t.addMinute).toMs = t.toMs + 60000 ∧
    minuteIndex t.addMinute = minuteIndex t + 1 := by
  obtain ⟨h1, h2, h3⟩ := hv
  unfold Instant.addMinute Instant.toMs minuteIndex
  split
  · simp only; omega
  · simp only; omega


lemma processorMap_ok (t : StepType) (tl : List Effect)
    (h : processorMap t = Except.ok tl) :
    tl = [Effect.enqueueNextStep t] ∧ isReservedType t = false := by
  cases t <;> simp_all [processorMap, isReservedType]

lemma processorMap_reserved (t : StepType) (h : isReservedType t = true) :
    processorMap t = Except.error ProcessError.notImplemented := by
  cases t <;> simp_all [processorMap, isReservedType]

lemma dispatchTail_timer (env : ProcEnv) (t : StepType)
    (hn : env.nextStep = some t) (ht : isTimerType t = true) :
    dispatchTail env = Except.ok [Effect.unlock] := by
  simp [dispatchTail, hn, ht]

lemma dispatchTail_none (env : ProcEnv) (hn : env.nextStep = none) :
    dispatchTail env = Except.ok [Effect.unlock] := by
  simp [dispatchTail, hn]

lemma dispatchTail_impl (env : ProcEnv) (t : StepType)
    (hn : env.nextStep = some t) (ht : isTimerType t = false)
    (hr : isReservedType t = false) :
    dispatchTail env = Except.ok [Effect.enqueueNextStep t] := by
  simp only [dispatchTail, hn, ht, Bool.not_false, if_true]
  cases t <;> simp_all [processorMap, isReservedType]

lemma dispatchTail_reserved (env : ProcEnv) (t : StepType)
    (hn : env.nextStep = some t) (hr : isReservedType t = true) :
    dispatchTail env = Except.error ProcessError.notImplemented := by
  have ht : isTimerType t = false := by
    cases t <;> simp_all [isTimerType, isReservedType]
  simp only [dispatchTail, hn, ht, Bool.not_false, if_true]
  exact processorMap_reserved t hr

lemma dispatchTail_ok_tail (env : ProcEnv) (tl : List Effect)
    (h : dispatchTail env = Except.ok tl) :
    ∀ e ∈ tl, isTailEffect e = true := by
  unfold dispatchTail at h
  rcases hn : env.nextStep with _ | t <;> simp only [hn] at h
  · injection h with h; subst h; intro e he; fin_cases he <;> rfl
  · split at h
    · obtain ⟨rfl, -⟩ := processorMap_ok t tl h
      intro e he; fin_cases he <;> rfl
    · injection h with h; subst h; intro e he; fin_cases he <;> rfl

lemma sendEffects_ok_sendish (env : ProcEnv) (t : Template) (effs : List Effect)
    (h : sendEffects env t = Except.ok effs) :
    ∀ e ∈ effs, isSendishEffect e = true := by
  unfold sendEffects at h
  repeat' split at h
  all_goals first
    | (injection h with h; subst h; decide)
    | injection h


lemma processRun_preTail (env : ProcEnv) (pre : List Effect)
    (hp : preTailEffects env = some pre) :
    (∀ tl, dispatchTail env = Except.ok tl → processRun env = (pre ++ tl, none)) ∧
    (∀ e, dispatchTail env = Except.error e → processRun env = (pre, some e)) := by
  unfold preTailEffects at hp
  unfold processRun
  rcases hg : (sendGate env).1 <;> simp only [hg] at hp ⊢
  case SEND =>
    rcases ht : env.template with _ | t <;> simp only [ht] at hp ⊢
    · exact absurd hp (by simp)
    · rcases hs : sendEffects env t with e | effs <;> simp only [hs] at hp ⊢
      · exact absurd hp (by simp)
      · injection hp with hp; subst hp
        constructor
        · intro tl htl; rw [htl]; try simp
        · intro e he; rw [he]; try simp
  case MOCK_SEND =>
    injection hp with hp; subst hp
    constructor
    · intro tl htl; rw [htl]; try simp
    · intro e he; rw [he]; try simp
  case QUIET_ABORT =>
    injection hp with hp; subst hp
    constructor
    · intro tl htl; rw [htl]; try simp
    · intro e he; rw [he]; try simp
  all_goals exact absurd hp (by simp)


lemma quietPhase_pair (env : ProcEnv) :
    quietPhase env = (MessageSendType.SEND, none) ∨
      ∃ qh r, quietPhase env = (quietDecision qh, some r) := by
  unfold quietPhase
  rcases hjs : env.journey.journeySettings with _ | js <;> simp only [hjs]
  · left; trivial
  · rcases hqh : js.quietHours with _ | qh <;> simp only [hqh]
    · left; trivial
    · by_cases he : qh.enabled = true
      · simp only [he, if_true]
        by_cases hw : isWithinInterval
            (convertTimeToUTC qh.startTime env.workspace.timezoneUTCOffset)
            (convertTimeToUTC qh.endTime env.workspace.timezoneUTCOffset)
            env.now.minute = true
        · right; exact ⟨qh, _, by rw [if_pos hw]⟩
        · left; rw [if_neg hw]
      · simp [he]

lemma quietPhase_SEND_none (env : ProcEnv)
    (h : (quietPhase env).1 = MessageSendType.SEND) :
    (quietPhase env).2 = none := by
  rcases quietPhase_pair env with hp | ⟨qh, r, hp⟩
  · rw [hp]
  · rw [hp] at h; exact absurd h (quietDecision_ne qh).1

lemma quietPhase_ne_SEND_snd (env : ProcEnv)
    (h : (quietPhase env).1 ≠ MessageSendType.SEND) :
    ∃ r, (quietPhase env).2 = some r := by
  rcases quietPhase_pair env with hp | ⟨qh, r, hp⟩
  · rw [hp] at h; simp at h
  · rw [hp]; exact ⟨r, rfl⟩

lemma sendGate_eq (env : ProcEnv) :
    sendGate env =
      if (quietPhase env).1 = MessageSendType.SEND then
        if env.customersMessagedLimitEnabled && env.customersMessagedDoRateLimit then
          (MessageSendType.LIMIT_HOLD, (quietPhase env).2)
        else if env.rateLimitByMinuteEnabled && env.rateLimitByMinuteDoRateLimit then
          (MessageSendType.LIMIT_REQUEUE, some env.now.addMinute)
        else if env.mockMessageSend && templateTruthyNoWebhook env.template then
          (MessageSendType.MOCK_SEND, (quietPhase env).2)
        else (MessageSendType.SEND, (quietPhase env).2)
      else quietPhase env := by
  unfold sendGate
  by_cases h1 : (quietPhase env).1 = MessageSendType.SEND
  · by_cases h2 : (env.customersMessagedLimitEnabled && env.customersMessagedDoRateLimit) = true
    · simp [h1, h2]
    · by_cases h3 : (env.rateLimitByMinuteEnabled && env.rateLimitByMinuteDoRateLimit) = true
      · simp [h1, h2, h3]
      · by_cases h4 : (env.mockMessageSend && templateTruthyNoWebhook env.template) = true
        · simp [h1, h2, h3, h4]
        · simp [h1, h2, h3, h4]
  · simp [h1, Prod.mk.eta]


lemma processRun_requeue (env : ProcEnv)
    (h : (sendGate env).1 = MessageSendType.QUIET_REQUEUE ∨
         (sendGate env).1 = MessageSendType.LIMIT_REQUEUE) :
    processRun env =
      ([Effect.requeueMessage env.stepId env.customerId (sendGate env).2,
        Effect.unlock], none) := by
  unfold processRun
  rcases h with h | h <;> simp only [h]

lemma processRun_hold (env : ProcEnv)
    (h : (sendGate env).1 = MessageSendType.LIMIT_HOLD) :
    processRun env = ([Effect.unlock], none) := by
  unfold processRun
  simp only [h]

lemma processRun_quiet_mem (env : ProcEnv)
    (h : (sendGate env).1 = MessageSendType.QUIET_ABORT ∨
         (sendGate env).1 = MessageSendType.QUIET_REQUEUE)
    (e : Effect) (he : e ∈ (processRun env).1) :
    e = Effect.insertAborted ∨ isTailEffect e = true ∨
      e = Effect.requeueMessage env.stepId env.customerId (sendGate env).2 ∨
      e = Effect.unlock := by
  rcases h with h | h
  · unfold processRun at he
    simp only [h] at he
    rcases hd : dispatchTail env with er | tl <;> rw [hd] at he <;> simp at he
    · left; exact he
    · rcases he with rfl | he
      · left; rfl
      · right; left; exact dispatchTail_ok_tail env tl hd e he
  · rw [processRun_requeue env (Or.inl h)] at he
    simp at he
    rcases he with rfl | rfl
    · right; right; left; rfl
    · right; right; right; rfl

/-- C1: when quiet hours are enabled and the current UTC time of day lies
inside the configured quiet window, the Send Gate decides `QUIET_ABORT`
under fallback `Abort` and `QUIET_REQUEUE` under `NextAvailableTime` or an
unspecified fallback; the decision is never `SEND` nor `MOCK_SEND`, and the
run performs no real or mock send side effect. -/
theorem quiet_hours_never_sends (env : ProcEnv) (js : JourneySettings) (qh : QuietHours)
    (hjs : env.journey.journeySettings = some js)
    (hqh : js.quietHours = some qh)
    (hen : qh.enabled = true)
    (hin : isWithinInterval (convertTimeToUTC qh.startTime env.workspace.timezoneUTCOffset)
      (convertTimeToUTC qh.endTime env.workspace.timezoneUTCOffset) env.now.minute = true) :
    (qh.fallbackBehavior = some QuietFallbackBehavior.Abort →
      (sendGate env).1 = MessageSendType.QUIET_ABORT) ∧
    (qh.fallbackBehavior ≠ some QuietFallbackBehavior.Abort →
      (sendGate env).1 = MessageSendType.QUIET_REQUEUE) ∧
    (sendGate env).1 ≠ MessageSendType.SEND ∧
    (sendGate env).1 ≠ MessageSendType.MOCK_SEND ∧
    (∀ c, Effect.sendMessage c ∉ (processRun env).1) ∧
    Effect.enqueueWebhook ∉ (processRun env).1 ∧
    Effect.insertSentSynthetic ∉ (processRun env).1 ∧
    (∀ b, Effect.mockPing b ∉ (processRun env).1) := by
  have hg := sendGate_quiet env js qh hjs hqh hen hin
  have hg1 : (sendGate env).1 = quietDecision qh := by rw [hg]
  have hne := quietDecision_ne qh
  have hq : (sendGate env).1 = MessageSendType.QUIET_ABORT ∨
      (sendGate env).1 = MessageSendType.QUIET_REQUEUE := by
    rw [hg1]; unfold quietDecision
    rcases qh.fallbackBehavior with _ | fb
    · right; rfl
    · cases fb
      · right; rfl
      · left; rfl
  refine ⟨?_, ?_, ?_, ?_, ?_, ?_, ?_, ?_⟩
  · intro hab; rw [hg1]; unfold quietDecision; rw [hab]
  · intro hab; rw [hg1]; unfold quietDecision
    rcases hfb : qh.fallbackBehavior with _ | fb
    · rfl
    · cases fb
      · rfl
      · exact absurd hfb hab
  · rw [hg1]; exact hne.1
  · rw [hg1]; exact hne.2.1
  · intro c hmem
    rcases processRun_quiet_mem env hq _ hmem with h | h | h | h <;> simp [isTailEffect] at h
  · intro hmem
    rcases processRun_quiet_mem env hq _ hmem with h | h | h | h <;> simp [isTailEffect] at h
  · intro hmem
    rcases processRun_quiet_mem env hq _ hmem with h | h | h | h <;> simp [isTailEffect] at h
  · intro b hmem
    rcases processRun_quiet_mem env hq _ hmem with h | h | h | h <;> simp [isTailEffect] at h

/-- C1 witness: a concrete job inside a 22:00 → 06:00 quiet window with
fallback `Abort` resolves `QUIET_ABORT`. -/
theorem quiet_hours_never_sends_witness :
    envQuietAbort.journey.journeySettings =
      some ⟨some { quietWindow2206 with
        fallbackBehavior := some QuietFallbackBehavior.Abort }⟩ ∧
    (sendGate envQuietAbort).1 = MessageSendType.QUIET_ABORT := by
  refine ⟨rfl, ?_⟩
  exact (quiet_hours_never_sends envQuietAbort
    ⟨some { quietWindow2206 with fallbackBehavior := some QuietFallbackBehavior.Abort }⟩
    { quietWindow2206 with fallbackBehavior := some QuietFallbackBehavior.Abort }
    rfl rfl rfl (by decide)).1 rfl


/-- C2: the guards of the Send Gate run in the fixed order quiet-hours,
distinct-customers, per-minute, mock-mode, each only while the decision is
still `SEND`: a quiet-hours decision is final, a distinct-customers hold
pre-empts the per-minute check (both limits tripping yields `LIMIT_HOLD`),
and the mock check runs only when every earlier guard passed. -/
theorem gate_guard_order (env : ProcEnv) :
    ((quietPhase env).1 ≠ MessageSendType.SEND → sendGate env = quietPhase env) ∧
    ((quietPhase env).1 = MessageSendType.SEND →
      env.customersMessagedLimitEnabled = true →
      env.customersMessagedDoRateLimit = true →
      (sendGate env).1 = MessageSendType.LIMIT_HOLD) ∧
    ((quietPhase env).1 = MessageSendType.SEND →
      (env.customersMessagedLimitEnabled && env.customersMessagedDoRateLimit) = false →
      env.rateLimitByMinuteEnabled = true →
      env.rateLimitByMinuteDoRateLimit = true →
      (sendGate env).1 = MessageSendType.LIMIT_REQUEUE) ∧
    ((quietPhase env).1 = MessageSendType.SEND →
      (env.customersMessagedLimitEnabled && env.customersMessagedDoRateLimit) = false →
      (env.rateLimitByMinuteEnabled && env.rateLimitByMinuteDoRateLimit) = false →
      env.mockMessageSend = true →
      templateTruthyNoWebhook env.template = true →
      (sendGate env).1 = MessageSendType.MOCK_SEND) := by
  refine ⟨?_, ?_, ?_, ?_⟩
  · intro h1; rw [sendGate_eq, if_neg h1]
  · intro h1 h2 h3; rw [sendGate_eq]; simp [h1, h2, h3]
  · intro h1 h2 h3 h4; rw [sendGate_eq]; simp [h1, h2, h3, h4]
  · intro h1 h2 h3 h4 h5; rw [sendGate_eq]; simp [h1, h2, h3, h4, h5]

/-- C2 witness: inside quiet hours with both rate limits tripping the
decision stays the quiet one, and outside quiet hours with both limits
tripping the decision is `LIMIT_HOLD`, not `LIMIT_REQUEUE`. -/
theorem gate_guard_order_witness :
    (quietPhase envQuietBothLimits).1 ≠ MessageSendType.SEND ∧
    sendGate envQuietBothLimits = quietPhase envQuietBothLimits ∧
    (sendGate envQuietBothLimits).1 = MessageSendType.QUIET_REQUEUE ∧
    (quietPhase envBothLimits).1 = MessageSendType.SEND ∧
    (sendGate envBothLimits).1 = MessageSendType.LIMIT_HOLD ∧
    (sendGate envBothLimits).1 ≠ MessageSendType.LIMIT_REQUEUE := by
  refine ⟨by decide, (gate_guard_order envQuietBothLimits).1 (by decide), by decide,
    by decide, (gate_guard_order envBothLimits).2.1 (by decide) rfl rfl, by decide⟩

/-- C3: a quiet-hours requeue wakes at the UTC end time of the window on the
current UTC date, advanced by one calendar day exactly when that instant
is not strictly after now (in the reachable states the strict
`<` comparison agrees with this description). -/
theorem quiet_requeue_wake_time (env : ProcEnv) (js : JourneySettings) (qh : QuietHours)
    (hv : env.now.Valid)
    (hjs : env.journey.journeySettings = some js)
    (hqh : js.quietHours = some qh)
    (hen : qh.enabled = true)
    (hin : isWithinInterval (convertTimeToUTC qh.startTime env.workspace.timezoneUTCOffset)
      (convertTimeToUTC qh.endTime env.workspace.timezoneUTCOffset) env.now.minute = true)
    (hfb : qh.fallbackBehavior ≠ some QuietFallbackBehavior.Abort) :
    (sendGate env).1 = MessageSendType.QUIET_REQUEUE ∧
    (sendGate env).2 = some (specQuietWake env.now
      (convertTimeToUTC qh.endTime env.workspace.timezoneUTCOffset)) := by
  have hg := sendGate_quiet env js qh hjs hqh hen hin
  constructor
  · rw [hg]
    unfold quietDecision
    rcases hb : qh.fallbackBehavior with _ | fb
    · rfl
    · cases fb
      · rfl
      · exact absurd hb hfb
  · rw [hg]
    rw [quietRequeueTime_eq_spec env.now _ hv (convertTimeToUTC_lt _ _)
      (isWithinInterval_ne_end _ _ _ hin)]

/-- C3 witness: window 22:00 → 06:00 (offset 0) evaluated at 23:30 wakes
at 06:00 of the next calendar day. -/
theorem quiet_requeue_wake_time_witness :
    envQuietRequeue.now = ⟨100, 1410, 0, 0⟩ ∧
    quietWindow2206.startTime = 22 * 60 ∧ quietWindow2206.endTime = 6 * 60 ∧
    (sendGate envQuietRequeue).1 = MessageSendType.QUIET_REQUEUE ∧
    (sendGate envQuietRequeue).2 = some ⟨101, 6 * 60, 0, 0⟩ := by
  have h := quiet_requeue_wake_time envQuietRequeue ⟨some quietWindow2206⟩
    quietWindow2206 (by decide) rfl rfl rfl (by decide) (by decide)
  refine ⟨rfl, rfl, rfl, h.1, ?_⟩
  rw [h.2]; decide

/-- C4 amended: when the quiet-hours and distinct-customers guards pass
and the per-minute cap is reached, the gate resolves `LIMIT_REQUEUE` with
a requeue time exactly 60 seconds after now — one minute later with the
second-of-minute preserved, landing inside the next minute — rather than
at the start of the next minute. -/
theorem minute_limit_requeue (env : ProcEnv)
    (hv : env.now.Valid)
    (hq : (quietPhase env).1 = MessageSendType.SEND)
    (hc : (env.customersMessagedLimitEnabled && env.customersMessagedDoRateLimit) = false)
    (he : env.rateLimitByMinuteEnabled = true)
    (hd : env.rateLimitByMinuteDoRateLimit = true) :
    (sendGate env).1 = MessageSendType.LIMIT_REQUEUE ∧
    (sendGate env).2 = some env.now.addMinute ∧
    (env.now.addMinute).toMs = env.now.toMs + 60000 ∧
    minuteIndex env.now.addMinute = minuteIndex env.now + 1 := by
  have ha := addMinute_toMs env.now hv
  have h1 : sendGate env = (MessageSendType.LIMIT_REQUEUE, some env.now.addMinute) := by
    rw [sendGate_eq]; simp [hq, hc, he, hd]
  exact ⟨by rw [h1], by rw [h1], ha.1, ha.2⟩

/-- C4 counterexample: at 23:30:30.005 with the per-minute cap reached,
the computed requeue time is 23:31:30.005 — not the start of the next
minute, 23:31:00.000, as the claim states. -/
theorem minute_limit_requeue_counterexample :
    (sendGate envMinuteLimit).1 = MessageSendType.LIMIT_REQUEUE ∧
    envMinuteLimit.now = ⟨100, 1410, 30, 5⟩ ∧
    (sendGate envMinuteLimit).2 = some ⟨100, 1411, 30, 5⟩ ∧
    specNextMinuteStart envMinuteLimit.now = ⟨100, 1411, 0, 0⟩ ∧
    (sendGate envMinuteLimit).2 ≠ some (specNextMinuteStart envMinuteLimit.now) := by
  decide

/-- C4 witness: a concrete instantiation of the amended per-minute
requeue behaviour. -/
theorem minute_limit_requeue_witness :
    (sendGate envMinuteLimit).1 = MessageSendType.LIMIT_REQUEUE ∧
    (sendGate envMinuteLimit).2 = some envMinuteLimit.now.addMinute ∧
    minuteIndex envMinuteLimit.now.addMinute = minuteIndex envMinuteLimit.now + 1 := by
  have h := minute_limit_requeue envMinuteLimit (by decide) (by decide) rfl rfl rfl
  exact ⟨h.1, h.2.1, h.2.2.2⟩


lemma preTail_mem (env : ProcEnv) (pre : List Effect)
    (hp : preTailEffects env = some pre) :
    ∀ e ∈ pre, isSendishEffect e = true ∨ e = Effect.setMessageSent ∨
      e = Effect.rateLimitByMinuteIncrement ∨ e = Effect.insertAborted ∨
      e = Effect.insertSentSynthetic ∨ (∃ b, e = Effect.mockPing b) := by
  unfold preTailEffects at hp
  rcases hg : (sendGate env).1 <;> simp only [hg] at hp
  case SEND =>
    rcases ht : env.template with _ | t <;> simp only [ht] at hp
    · exact absurd hp (by simp)
    · rcases hs : sendEffects env t with er | effs <;> simp only [hs] at hp
      · exact absurd hp (by simp)
      · injection hp with hp; subst hp
        intro e he
        simp at he
        rcases he with he | rfl | rfl
        · exact Or.inl (sendEffects_ok_sendish env t effs hs e he)
        · tauto
        · tauto
  case QUIET_ABORT =>
    injection hp with hp; subst hp
    intro e he
    simp at he; subst he
    tauto
  case MOCK_SEND =>
    injection hp with hp; subst hp
    intro e he
    rcases hping : env.pingConfigured <;> simp [hping] at he
    · rcases he with rfl | rfl | rfl <;> tauto
    · rcases he with rfl | rfl | rfl | rfl
      · exact Or.inr (Or.inr (Or.inr (Or.inr (Or.inr ⟨_, rfl⟩))))
      · tauto
      · tauto
      · tauto
  all_goals exact absurd hp (by simp)

lemma no_customers_increment (env : ProcEnv) :
    Effect.rateLimitByCustomersIncrement ∉ (processRun env).1 := by
  intro hmem
  rcases hg : (sendGate env).1
  case SEND =>
    unfold processRun at hmem
    simp only [hg] at hmem
    rcases ht : env.template with _ | t <;> simp only [ht] at hmem
    · simp at hmem
    · rcases hs : sendEffects env t with er | effs <;> simp only [hs] at hmem
      · simp at hmem
      · have hsend := sendEffects_ok_sendish env t effs hs
        have hno : Effect.rateLimitByCustomersIncrement ∉ effs := fun hh => by
          simpa [isSendishEffect] using hsend _ hh
        rcases hd : dispatchTail env with er | tl <;> rw [hd] at hmem <;> simp at hmem
        · exact hno hmem
        · rcases hmem with hmem | hmem
          · exact hno hmem
          · simpa [isTailEffect] using dispatchTail_ok_tail env tl hd _ hmem
  case MOCK_SEND =>
    unfold processRun at hmem
    simp only [hg] at hmem
    rcases hd : dispatchTail env with er | tl <;> rw [hd] at hmem <;>
      rcases hping : env.pingConfigured <;> simp [hping] at hmem <;>
      simpa [isTailEffect] using dispatchTail_ok_tail env tl hd _ hmem
  case QUIET_ABORT =>
    rcases processRun_quiet_mem env (Or.inl hg) _ hmem with h | h | h | h <;>
      simp [isTailEffect] at h
  case QUIET_REQUEUE =>
    rcases processRun_quiet_mem env (Or.inr hg) _ hmem with h | h | h | h <;>
      simp [isTailEffect] at h
  case LIMIT_REQUEUE =>
    rw [processRun_requeue env (Or.inr hg)] at hmem
    simp at hmem
  case LIMIT_HOLD =>
    rw [processRun_hold env hg] at hmem
    simp at hmem


/-- C5 amended: on a `SEND` outcome the real-send effects come first and
only then does the engine mark `messageSent` and increment the per-minute
counter; no increment or `messageSent` marking occurs among the send
effects (the check phase performs none), and no run ever performs an
explicit distinct-customer counter increment — the `messageSent` flag is
the only distinct-customer accounting done here.  (Mock sends also credit
the per-minute increment; see the counterexample.) -/
theorem send_then_increment (env : ProcEnv) (t : Template)
    (effs tl : List Effect)
    (hg : (sendGate env).1 = MessageSendType.SEND)
    (ht : env.template = some t)
    (hs : sendEffects env t = Except.ok effs)
    (hd : dispatchTail env = Except.ok tl) :
    processRun env =
      ((effs ++ [Effect.setMessageSent, Effect.rateLimitByMinuteIncrement]) ++ tl, none) ∧
    Effect.setMessageSent ∉ effs ∧
    Effect.rateLimitByMinuteIncrement ∉ effs ∧
    (∀ env2 : ProcEnv, Effect.rateLimitByCustomersIncrement ∉ (processRun env2).1) := by
  have hp : preTailEffects env = some
      (effs ++ [Effect.setMessageSent, Effect.rateLimitByMinuteIncrement]) := by
    unfold preTailEffects; simp only [hg, ht, hs]
  have hsend := sendEffects_ok_sendish env t effs hs
  refine ⟨(processRun_preTail env _ hp).1 tl hd, ?_, ?_, fun env2 => no_customers_increment env2⟩
  · intro hmem; simpa [isSendishEffect] using hsend _ hmem
  · intro hmem; simpa [isSendishEffect] using hsend _ hmem

/-- C5 witness: a concrete `SEND` run whose trace is the email send
effects, then `messageSent`, then the per-minute increment, then the
dispatch of the destination step. -/
theorem send_then_increment_witness :
    (sendGate baseEnv).1 = MessageSendType.SEND ∧
    processRun baseEnv =
      (([Effect.sendMessage TemplateType.EMAIL, Effect.insertDeliveryStatus] ++
        [Effect.setMessageSent, Effect.rateLimitByMinuteIncrement]) ++
        [Effect.enqueueNextStep StepType.MESSAGE], none) := by
  refine ⟨by decide, (send_then_increment baseEnv ⟨TemplateType.EMAIL, false⟩
    [Effect.sendMessage TemplateType.EMAIL, Effect.insertDeliveryStatus]
    [Effect.enqueueNextStep StepType.MESSAGE] (by decide) rfl rfl rfl).1⟩

/-- C5 counterexample: a `MOCK_SEND` outcome — not a confirmed real
send — still credits the per-minute increment, and a completed `SEND` run
performs no distinct-customer counter increment at all. -/
theorem send_increment_counterexample :
    (sendGate envMock).1 = MessageSendType.MOCK_SEND ∧
    Effect.rateLimitByMinuteIncrement ∈ (processRun envMock).1 ∧
    (sendGate baseEnv).1 = MessageSendType.SEND ∧
    (processRun baseEnv).2 = none ∧
    Effect.sendMessage TemplateType.EMAIL ∈ (processRun baseEnv).1 ∧
    Effect.rateLimitByCustomersIncrement ∉ (processRun baseEnv).1 := by decide

/-- C6: on a `QUIET_ABORT` outcome the run records the synthetic
`aborted` telemetry event, sends nothing, does not mark `messageSent`,
increments no rate-limit counter, and still continues into the dispatcher
tail, advancing to the resolved destination of the step. -/
theorem quiet_abort_records_and_advances (env : ProcEnv) (tl : List Effect)
    (hg : (sendGate env).1 = MessageSendType.QUIET_ABORT)
    (hd : dispatchTail env = Except.ok tl) :
    processRun env = ([Effect.insertAborted] ++ tl, none) ∧
    Effect.insertAborted ∈ (processRun env).1 ∧
    (∀ c, Effect.sendMessage c ∉ (processRun env).1) ∧
    Effect.setMessageSent ∉ (processRun env).1 ∧
    Effect.rateLimitByMinuteIncrement ∉ (processRun env).1 ∧
    Effect.rateLimitByCustomersIncrement ∉ (processRun env).1 ∧
    (∀ t, env.nextStep = some t → isTimerType t = false → isReservedType t = false →
      Effect.enqueueNextStep t ∈ (processRun env).1) := by
  have hp : preTailEffects env = some [Effect.insertAborted] := by
    unfold preTailEffects; simp only [hg]
  have heq := (processRun_preTail env _ hp).1 tl hd
  refine ⟨heq, by rw [heq]; simp, ?_, ?_, ?_, no_customers_increment env, ?_⟩
  · intro c hmem
    rcases processRun_quiet_mem env (Or.inl hg) _ hmem with h | h | h | h <;>
      simp [isTailEffect] at h
  · intro hmem
    rcases processRun_quiet_mem env (Or.inl hg) _ hmem with h | h | h | h <;>
      simp [isTailEffect] at h
  · intro hmem
    rcases processRun_quiet_mem env (Or.inl hg) _ hmem with h | h | h | h <;>
      simp [isTailEffect] at h
  · intro t hn htimer hres
    have hdt := dispatchTail_impl env t hn htimer hres
    rw [hd] at hdt
    injection hdt with hdt
    rw [heq, hdt]
    simp

/-- C6 witness: a concrete quiet-hours abort records `aborted` and still
advances to the destination message step. -/
theorem quiet_abort_records_and_advances_witness :
    (sendGate envQuietAbort).1 = MessageSendType.QUIET_ABORT ∧
    processRun envQuietAbort =
      ([Effect.insertAborted] ++ [Effect.enqueueNextStep StepType.MESSAGE], none) ∧
    Effect.enqueueNextStep StepType.MESSAGE ∈ (processRun envQuietAbort).1 := by
  have h := quiet_abort_records_and_advances envQuietAbort
    [Effect.enqueueNextStep StepType.MESSAGE] (by decide) rfl
  exact ⟨by decide, h.1, h.2.2.2.2.2.2 StepType.MESSAGE rfl (by decide) (by decide)⟩

/-- C7: on a `QUIET_REQUEUE` or `LIMIT_REQUEUE` outcome the run enqueues a
delayed re-attempt of the same step for the same customer at the computed
requeue time (which is always present), releases the location lock, and
stops: nothing is sent, no next step is dispatched, `messageSent` is not
marked. -/
theorem requeue_same_step_and_stop (env : ProcEnv)
    (hg : (sendGate env).1 = MessageSendType.QUIET_REQUEUE ∨
          (sendGate env).1 = MessageSendType.LIMIT_REQUEUE) :
    (∃ rt, (sendGate env).2 = some rt) ∧
    processRun env = ([Effect.requeueMessage env.stepId env.customerId (sendGate env).2,
      Effect.unlock], none) ∧
    (∀ t, Effect.enqueueNextStep t ∉ (processRun env).1) ∧
    (∀ c, Effect.sendMessage c ∉ (processRun env).1) ∧
    Effect.setMessageSent ∉ (processRun env).1 ∧
    Effect.rateLimitByMinuteIncrement ∉ (processRun env).1 := by
  have heq := processRun_requeue env hg
  have hsnd : ∃ rt, (sendGate env).2 = some rt := by
    by_cases hq : (quietPhase env).1 = MessageSendType.SEND
    · rcases hg with hg | hg
      · rw [sendGate_eq] at hg
        simp only [hq, if_pos rfl] at hg
        split_ifs at hg <;> simp_all
      · rw [sendGate_eq] at hg ⊢
        simp only [hq, if_pos rfl] at hg ⊢
        split_ifs at hg ⊢ <;> simp_all
    · have hqq := quietPhase_ne_SEND_snd env hq
      rw [sendGate_eq, if_neg hq]
      exact hqq
  refine ⟨hsnd, heq, ?_, ?_, ?_, ?_⟩ <;>
    first
      | (intro t hmem; rw [heq] at hmem; simp at hmem)
      | (intro hmem; rw [heq] at hmem; simp at hmem)

/-- C7 witness: a concrete quiet-hours requeue enqueues the delayed
re-attempt of step 7 for customer 21 at the next 06:00 and releases the
lock. -/
theorem requeue_same_step_and_stop_witness :
    (sendGate envQuietRequeue).1 = MessageSendType.QUIET_REQUEUE ∧
    processRun envQuietRequeue =
      ([Effect.requeueMessage 7 21 (some ⟨101, 360, 0, 0⟩), Effect.unlock], none) := by
  have h := requeue_same_step_and_stop envQuietRequeue (Or.inl (by decide))
  refine ⟨by decide, ?_⟩
  rw [h.2.1]
  decide


lemma preTail_no_unlock_enqueue (env : ProcEnv) (pre : List Effect)
    (hp : preTailEffects env = some pre) :
    Effect.unlock ∉ pre ∧ ∀ u, Effect.enqueueNextStep u ∉ pre := by
  have hv := preTail_mem env pre hp
  constructor
  · intro h
    rcases hv _ h with h | h | h | h | h | ⟨b, h⟩ <;> simp [isSendishEffect] at h
  · intro u h
    rcases hv _ h with h | h | h | h | h | ⟨b, h⟩ <;> simp [isSendishEffect] at h

/-- C8 amended: after a completed send attempt, a timer-class or missing
destination releases the lock and enqueues nothing; an implemented
non-timer destination is enqueued with the lock kept; a reserved
(unimplemented) destination type throws `notImplemented`, enqueuing
nothing and releasing nothing. -/
theorem dispatch_after_attempt (env : ProcEnv) (pre : List Effect)
    (hp : preTailEffects env = some pre) :
    (∀ t, env.nextStep = some t → isTimerType t = true →
      processRun env = (pre ++ [Effect.unlock], none) ∧
      (∀ u, Effect.enqueueNextStep u ∉ (processRun env).1)) ∧
    (env.nextStep = none →
      processRun env = (pre ++ [Effect.unlock], none) ∧
      (∀ u, Effect.enqueueNextStep u ∉ (processRun env).1)) ∧
    (∀ t, env.nextStep = some t → isTimerType t = false → isReservedType t = false →
      processRun env = (pre ++ [Effect.enqueueNextStep t], none) ∧
      Effect.unlock ∉ (processRun env).1) ∧
    (∀ t, env.nextStep = some t → isReservedType t = true →
      processRun env = (pre, some ProcessError.notImplemented) ∧
      Effect.unlock ∉ (processRun env).1 ∧
      (∀ u, Effect.enqueueNextStep u ∉ (processRun env).1)) := by
  obtain ⟨hnu, hne⟩ := preTail_no_unlock_enqueue env pre hp
  refine ⟨?_, ?_, ?_, ?_⟩
  · intro t hn ht
    have heq := (processRun_preTail env _ hp).1 _ (dispatchTail_timer env t hn ht)
    refine ⟨heq, ?_⟩
    intro u hmem
    rw [heq] at hmem
    simp at hmem
    exact hne u hmem
  · intro hn
    have heq := (processRun_preTail env _ hp).1 _ (dispatchTail_none env hn)
    refine ⟨heq, ?_⟩
    intro u hmem
    rw [heq] at hmem
    simp at hmem
    exact hne u hmem
  · intro t hn ht hr
    have heq := (processRun_preTail env _ hp).1 _ (dispatchTail_impl env t hn ht hr)
    refine ⟨heq, ?_⟩
    intro hmem
    rw [heq] at hmem
    simp at hmem
    exact hnu hmem
  · intro t hn hr
    have heq := (processRun_preTail env _ hp).2 _ (dispatchTail_reserved env t hn hr)
    refine ⟨heq, ?_, ?_⟩
    · intro hmem
      rw [heq] at hmem
      exact hnu hmem
    · intro u hmem
      rw [heq] at hmem
      exact hne u hmem

/-- C8 witness: a completed email send whose destination is a `TimeDelay`
step releases the lock instead of chaining into it. -/
theorem dispatch_after_attempt_witness :
    preTailEffects { baseEnv with nextStep := some StepType.TIME_DELAY } =
      some ([Effect.sendMessage TemplateType.EMAIL, Effect.insertDeliveryStatus] ++
        [Effect.setMessageSent, Effect.rateLimitByMinuteIncrement]) ∧
    isTimerType StepType.TIME_DELAY = true ∧
    processRun { baseEnv with nextStep := some StepType.TIME_DELAY } =
      (([Effect.sendMessage TemplateType.EMAIL, Effect.insertDeliveryStatus] ++
        [Effect.setMessageSent, Effect.rateLimitByMinuteIncrement]) ++
        [Effect.unlock], none) := by
  refine ⟨rfl, rfl, ?_⟩
  exact ((dispatch_after_attempt { baseEnv with nextStep := some StepType.TIME_DELAY }
    ([Effect.sendMessage TemplateType.EMAIL, Effect.insertDeliveryStatus] ++
      [Effect.setMessageSent, Effect.rateLimitByMinuteIncrement])
    rfl).1 StepType.TIME_DELAY rfl rfl).1

/-- C8 counterexample: with the reserved non-timer destination type
`AB_TEST` the dispatcher does not enqueue the job of the next step — the run
throws `notImplemented` (and the lock is not released either), contrary
to the "any other type" clause of the claim. -/
theorem dispatch_after_attempt_counterexample :
    (sendGate envAbortReserved).1 = MessageSendType.QUIET_ABORT ∧
    envAbortReserved.nextStep = some StepType.AB_TEST ∧
    isTimerType StepType.AB_TEST = false ∧
    processRun envAbortReserved =
      ([Effect.insertAborted], some ProcessError.notImplemented) ∧
    Effect.enqueueNextStep StepType.AB_TEST ∉ (processRun envAbortReserved).1 ∧
    Effect.unlock ∉ (processRun envAbortReserved).1 := by decide

/-- C9 amended: an email send on the exhausted free tier throws the
distinguished payment-required fault before performing any effect: no
send, no rate-limit increment — and processing stops at once, so the
next-step resolution of the dispatcher never runs and the lock is not released
here (contrary to the "proceeds as an abort" wording of the claim). -/
theorem quota_fault_stops (env : ProcEnv) (wd : Bool)
    (hg : (sendGate env).1 = MessageSendType.SEND)
    (ht : env.template = some ⟨TemplateType.EMAIL, wd⟩)
    (hpr : env.workspace.emailProvider = "free3")
    (hc : env.workspace.freeEmailsCount = 0) :
    processRun env = ([], some ProcessError.paymentRequired) ∧
    Effect.rateLimitByMinuteIncrement ∉ (processRun env).1 ∧
    (∀ u, Effect.enqueueNextStep u ∉ (processRun env).1) ∧
    Effect.unlock ∉ (processRun env).1 := by
  have hs : sendEffects env ⟨TemplateType.EMAIL, wd⟩ =
      Except.error ProcessError.paymentRequired := by
    unfold sendEffects
    simp [hpr, hc]
  have heq : processRun env = ([], some ProcessError.paymentRequired) := by
    unfold processRun
    simp only [hg, ht, hs]
  refine ⟨heq, ?_, ?_, ?_⟩ <;>
    first
      | (intro u hmem; rw [heq] at hmem; simp at hmem)
      | (intro hmem; rw [heq] at hmem; simp at hmem)

/-- C9 witness: the concrete exhausted-free-tier run. -/
theorem quota_fault_stops_witness :
    processRun envFreeQuota = ([], some ProcessError.paymentRequired) :=
  (quota_fault_stops envFreeQuota false (by decide) rfl rfl rfl).1

/-- C9 counterexample: on the exhausted free tier the run fails with the
payment fault having performed no effect at all — it does not proceed to
the next-step resolution of the dispatcher, contrary to the claim. -/
theorem quota_fault_counterexample :
    (sendGate envFreeQuota).1 = MessageSendType.SEND ∧
    envFreeQuota.workspace.emailProvider = "free3" ∧
    envFreeQuota.workspace.freeEmailsCount = 0 ∧
    envFreeQuota.nextStep = some StepType.MESSAGE ∧
    processRun envFreeQuota = ([], some ProcessError.paymentRequired) ∧
    Effect.enqueueNextStep StepType.MESSAGE ∉ (processRun envFreeQuota).1 ∧
    Effect.unlock ∉ (processRun envFreeQuota).1 := by decide

/-- C10: on a `MOCK_SEND` outcome the run pings the optional diagnostic
endpoint (a failing ping is caught and changes nothing — the statement
holds for either value of `pingFails`), records the synthetic `sent`
telemetry event, marks `messageSent`, and credits the per-minute
increment exactly as a real send does, while the distinct-customer
counter is untouched; the run then advances through the dispatcher
tail. -/
theorem mock_send_consumes_budget (env : ProcEnv) (tl : List Effect)
    (hg : (sendGate env).1 = MessageSendType.MOCK_SEND)
    (hd : dispatchTail env = Except.ok tl) :
    processRun env =
      (((if env.pingConfigured then [Effect.mockPing env.pingFails] else []) ++
        [Effect.insertSentSynthetic, Effect.setMessageSent,
          Effect.rateLimitByMinuteIncrement]) ++ tl, none) ∧
    Effect.rateLimitByMinuteIncrement ∈ (processRun env).1 ∧
    Effect.insertSentSynthetic ∈ (processRun env).1 ∧
    Effect.setMessageSent ∈ (processRun env).1 ∧
    Effect.rateLimitByCustomersIncrement ∉ (processRun env).1 ∧
    (processRun env).2 = none := by
  have hp : preTailEffects env = some
      ((if env.pingConfigured then [Effect.mockPing env.pingFails] else []) ++
        [Effect.insertSentSynthetic, Effect.setMessageSent,
          Effect.rateLimitByMinuteIncrement]) := by
    unfold preTailEffects; simp only [hg]
  have heq := (processRun_preTail env _ hp).1 tl hd
  refine ⟨heq, ?_, ?_, ?_, no_customers_increment env, by rw [heq]⟩ <;>
    (rw [heq]; simp)

/-- C10 witness: a concrete mock send with a configured, failing ping
still records `sent`, marks `messageSent`, credits the per-minute
increment and advances. -/
theorem mock_send_consumes_budget_witness :
    envMock.pingFails = true ∧
    processRun envMock =
      (([Effect.mockPing true] ++ [Effect.insertSentSynthetic, Effect.setMessageSent,
        Effect.rateLimitByMinuteIncrement]) ++
        [Effect.enqueueNextStep StepType.MESSAGE], none) := by
  have h := mock_send_consumes_budget envMock
    [Effect.enqueueNextStep StepType.MESSAGE] (by decide) rfl
  refine ⟨rfl, ?_⟩
  rw [h.1]
  decide

end Laudspeaker
